import Mathlib

/-! Shallow embedding of the autograder's orchestration core (models.py, utils.py,
submission.py, tasks.py, main.py) and proofs of the spec's testable properties.

Modelling conventions:
* Python numeric scores are IEEE-754 binary64 values; in this development a
  score is carried as the exact rational value of the double in question.
* Remote task-queue calls (`.delay(...).get()`) are modelled as oracle
  parameters of type `Except String _`: `.ok` is a normal return, `.error` is
  a raised exception (including a malformed result that fails validation).
* Logging, progress rendering and the CSV file handle are side effects with no
  bearing on the claims; the CSV append is modelled as the list of rows written.
-/

namespace Autograder

/-- Embeds `rubric.Level`: a tier of a criteria (definition text + numeric score). -/
structure Level where
  definition : String
  score : ℚ
deriving DecidableEq, Repr

/-- Embeds `rubric.Criteria`: a named rubric dimension with its levels. -/
structure Criteria where
  name : String
  levels : List Level
deriving DecidableEq, Repr

/-- Embeds `models.SubmissionFile`: one source file of a submission. -/
structure SubmissionFile where
  name : String
  content : String
  path : String
deriving DecidableEq, Repr

/-- Embeds `models.ScoreCriteriaResponse`: shape of the remote call's structured
output for one criteria — any `Level`-shaped value plus optional feedback. -/
structure ScoreCriteriaResponse where
  selected_level : Level
  feedback : Option String := none
deriving DecidableEq, Repr

/-- Embeds `models.CriteriaScore`: result of scoring one submission on one criteria. -/
structure CriteriaScore where
  criteria_name : String
  level_definition : String
  score : ℚ
  feedback : Option String := none
deriving DecidableEq, Repr

/-- Embeds `models.SubmissionScore`: aggregate score of one submission. -/
structure SubmissionScore where
  total_score : ℚ
  criteria_scores : List CriteriaScore
  overall_feedback : Option String := none
deriving DecidableEq, Repr

/-- Embeds `models.Status`: submission lifecycle status. -/
inductive Status where
  | pending
  | scoring
  | scored
  | failed
deriving DecidableEq, Repr

/-- Embeds `models.Submission`. -/
structure Submission where
  name : String
  folder_path : String
  files : List SubmissionFile
  status : Status := .pending
  score : Option SubmissionScore := none
deriving DecidableEq, Repr

/-! Embedding of utils.py -/

/-- Does the regex fragment `_\d+_assignsubmission_file` match a prefix of
`cs`?  The `\d+` is greedy and is followed by the non-digit `_`, so matching
the maximal digit run is exact (no backtracking can succeed otherwise). -/
def suffixPatternAt (cs : List Char) : Bool :=
  match cs with
  | '_' :: rest =>
      let digits := rest.takeWhile Char.isDigit
      !digits.isEmpty &&
        "_assignsubmission_file".toList.isPrefixOf (rest.drop digits.length)
  | _ => false

/-- Delete everything from the leftmost match of
`_\d+_assignsubmission_file.*$` to the end (the `.*$` consumes the rest of a
newline-free string, so `re.sub` deletes from the match start to the end). -/
def stripSuffixPattern : List Char → List Char
  | [] => []
  | c :: rest =>
      if suffixPatternAt (c :: rest) then [] else c :: stripSuffixPattern rest

/-- Does `_\d+_assignsubmission_file` match anywhere in the string? -/
def hasSuffixPattern (s : String) : Bool :=
  go s.toList
where
  go : List Char → Bool
    | [] => false
    | c :: rest => suffixPatternAt (c :: rest) || go rest

/-- Embeds `utils.extract_name`: strip the trailing `_<digits>_assignsubmission_file…`
part, then replace each underscore by a space. -/
def extract_name (folder_name : String) : String :=
  ⟨(stripSuffixPattern folder_name.toList).map
      (fun c => if c = '_' then ' ' else c)⟩

/-- Round a rational to the nearest integer, ties to even — the rounding
Python `round` applies to the exact value of its `float` argument.  Computed
on the numerator and (positive) denominator with Euclidean division:
`f = ⌊q⌋`, remainder `rem = num − f·den ∈ [0, den)`, and the tie sits at
`2·rem = den`. -/
def roundHalfEven (q : ℚ) : ℤ :=
  let a : ℤ := q.num
  let b : ℤ := (q.den : ℤ)
  let f : ℤ := Int.ediv a b
  let rem : ℤ := a - f * b
  if 2 * rem < b then f
  else if b < 2 * rem then f + 1
  else if Int.emod f 2 = 0 then f else f + 1

/-- Two-digit rendering of `n < 100`. -/
def pad2 (n : ℕ) : String :=
  if n < 10 then "0" ++ toString n else toString n

/-- Strip all trailing occurrences of `c` (Python `str.rstrip(c)`). -/
def rstripChar (c : Char) (s : String) : String :=
  ⟨(s.toList.reverse.dropWhile (· = c)).reverse⟩

/-- Embeds `utils.format_decimal`, on the exact rational value of the `float`
argument: `round(value, 2)` rounds the exact binary64 value to the closest
multiple of 1/100, ties to even; `f"{rounded:.2f}"` then renders that multiple
with exactly two fractional digits (re-rounding the binary64 nearest to `k/100`
back to two decimals reproduces `k/100` at these magnitudes); finally trailing
zeros and a trailing decimal point are stripped.  `100 · value` is formed as
`mkRat (100 · value.num) value.den`, the same rational number. -/
def format_decimal (value : ℚ) : String :=
  let n : ℤ := roundHalfEven (mkRat (100 * value.num) value.den)
  let sign : String := if n < 0 then "-" else ""
  let m : ℕ := n.natAbs
  let formatted : String := sign ++ toString (m / 100) ++ "." ++ pad2 (m % 100)
  rstripChar '.' (rstripChar '0' formatted)

/-! Embedding of submission.py -/

/-- Embeds `Path(x).name`: the last nonempty `/`-separated component of a path. -/
def lastComponent (path : String) : String :=
  (((path.splitOn "/").filter (· ≠ "")).getLast?).getD ""

/-- Python's `pattern in s` substring test. -/
def strContainsSubstr (s pattern : String) : Bool :=
  go s.toList
where
  go : List Char → Bool
    | [] => pattern.toList.isEmpty
    | c :: rest => pattern.toList.isPrefixOf (c :: rest) || go rest

/-- One entry yielded by `Path.iterdir()`: a name and whether it is a
directory. -/
structure DirEntry where
  name : String
  isDir : Bool
deriving DecidableEq, Repr

/-- Python `str.lower()` (ASCII range, as exercised by folder names). -/
def pyLower (s : String) : String :=
  ⟨s.toList.map Char.toLower⟩

/-- The sort key of `submission.get_submissions`:
`lambda x: Path(x).name.lower()`. -/
def submissionKey (x : String) : String :=
  pyLower (lastComponent x)

/-- Case-insensitive-by-name comparison used to sort submission folders. -/
def submissionLe (a b : String) : Bool :=
  decide (submissionKey a ≤ submissionKey b)

/-- Embeds `submission.get_submissions`: the immediate entries of the submissions
folder that are directories and contain `_assignsubmission_file` in their
name, as full paths, sorted (stably) by the case-insensitive folder name.
The directory listing is passed in as `entries`; `dirExists` models the
`submissions_path.exists()` guard. -/
def get_submissions (submissions_folder : String) (entries : List DirEntry)
    (dirExists : Bool) : List String :=
  if !dirExists then []
  else
    ((entries.filter
        (fun e => e.isDir && strContainsSubstr e.name "_assignsubmission_file")).map
      (fun e => submissions_folder ++ "/" ++ e.name)).mergeSort submissionLe

/-! Embedding of tasks.py -/

/-- Embeds `tasks.prepare_submission`: read the submission's source files (the
recursive `*.py` globbing and file reads are the oracle `readFiles`; any
I/O error is `.error`) and construct a `Submission` with status SCORING. -/
def prepare_submission (folder_path : String)
    (readFiles : Except String (List SubmissionFile)) : Except String Submission :=
  readFiles.map fun files =>
    { name := extract_name (lastComponent folder_path)
      folder_path := folder_path
      files := files
      status := .scoring
      score := none }

/-- Embeds `tasks.score_criteria`, result-construction core: the remote structured
call returns an arbitrary schema-valid `ScoreCriteriaResponse`; its selected
level's definition and score are copied verbatim into the `CriteriaScore`. -/
def score_criteria (criteria : Criteria) (response : ScoreCriteriaResponse) :
    CriteriaScore :=
  { criteria_name := criteria.name
    level_definition := response.selected_level.definition
    score := response.selected_level.score
    feedback := response.feedback }

/-- The dictionary returned by the batched scoring task, as consumed by
`main.process_single_submission` (`batched_result["criteria_scores"]` and
`batched_result["overall_feedback"]`). -/
structure BatchedResult where
  criteria_scores : List CriteriaScore
  overall_feedback : Option String
deriving DecidableEq, Repr

/-- Modelled from the spec: the task `score_submission_batched` imported by
`main.py` is absent from the sources; per the spec, the batched Criteria
Scorer combines all-criteria scoring with the overall-feedback request in one
remote call, a Criteria Scorer failure raises, and an Overall Feedback
Generator failure is non-fatal, leaving the criteria scores standing and the
overall feedback absent. -/
def score_submission_batched (criteriaStage : Except String (List CriteriaScore))
    (feedbackStage : Except String String) : Except String BatchedResult :=
  match criteriaStage with
  | .error e => .error e
  | .ok scores =>
      .ok { criteria_scores := scores
            overall_feedback :=
              match feedbackStage with
              | .ok fb => some fb
              | .error _ => none }

/-! Embedding of main.py -/

/-- Embeds `main.create_failed_submission`. -/
def create_failed_submission (submission_folder submission_name : String) :
    Submission :=
  { name := extract_name submission_name
    folder_path := submission_folder
    files := []
    status := .failed
    score := none }

/-- Embeds `main.process_single_submission`: the per-submission orchestration.
`prepared` is the outcome of the `prepare_submission` remote call (its raise
propagates to the outer handler, which synthesizes a failed submission);
`batched` is the outcome of the `score_submission_batched` remote call
(a raise — or a result whose criteria scores fail validation — marks the
submission FAILED; an empty criteria-score list leaves it as returned by
preparation; otherwise the total is summed once and the submission is
SCORED). -/
def process_single_submission (submission_folder : String)
    (prepared : Except String (List SubmissionFile))
    (batched : Except String BatchedResult) : Submission :=
  let submission_name := lastComponent submission_folder
  match prepare_submission submission_folder prepared with
  | .error _ => create_failed_submission submission_folder submission_name
  | .ok submission =>
      match batched with
      | .error _ => { submission with status := .failed }
      | .ok batched_result =>
          if batched_result.criteria_scores.isEmpty then submission
          else
            let total_score :=
              (batched_result.criteria_scores.map CriteriaScore.score).sum
            { submission with
                score := some
                  { total_score := total_score
                    criteria_scores := batched_result.criteria_scores
                    overall_feedback := batched_result.overall_feedback }
                status := .scored }

/-- One record of the output CSV (columns Name, Criteria, Level, Score,
Feedback; `csv.DictWriter` renders an absent/None feedback as the empty
cell). -/
structure Row where
  name : String
  criteria : String
  level : String
  score : String
  feedback : String
deriving DecidableEq, Repr

/-- Embeds `main.append_submission_to_csv`, modelled as the list of rows appended:
a submission without a score yields a single marker row (\x22Failed\x22 when its
status is FAILED, otherwise \x22No Score\x22); a scored submission yields one row
per criteria score followed by an optional overall-feedback row (emitted
only when the overall feedback is truthy, i.e. present and nonempty). -/
def append_submission_to_csv (submission : Submission) : List Row :=
  match submission.score with
  | none =>
      let status_info :=
        if submission.status = Status.failed then "Failed" else "No Score"
      [{ name := submission.name, criteria := "", level := "", score := ""
         feedback := status_info }]
  | some score =>
      score.criteria_scores.map (fun cs =>
        { name := submission.name
          criteria := cs.criteria_name
          level := cs.level_definition
          score := format_decimal cs.score
          feedback := cs.feedback.getD "" })
      ++ match score.overall_feedback with
         | some fb =>
             if fb = "" then []
             else [{ name := submission.name, criteria := "", level := ""
                     score := "", feedback := fb }]
         | none => []

/-- The result-collection loop of `main.main`: `as_completed` yields each
submission's future exactly once, in completion order (`arrival`, a
permutation of the dispatched folder list); `outcome f` is what
`future.result()` does for folder `f` — returns the orchestrator's
`Submission` or raises, in which case the coordinator synthesizes a FAILED
submission from the folder's display name. Each completed folder contributes
exactly one appended row-group. -/
def runBatch (arrival : List String)
    (outcome : String → Except String Submission) : List (String × Submission) :=
  arrival.map fun f =>
    (f, match outcome f with
        | .ok s => s
        | .error _ => create_failed_submission f (lastComponent f))

/-! The IEEE-754 binary64 values of the spec's `format_decimal` examples.

`8.0` and `8.5` are exactly representable.  For a literal `v ∈ [8, 16)` the
nearest double is `round(v · 2^49) / 2^49`:
`8.333 · 2^49 = 4691061961859792.896` rounds to `4691061961859793`, and
`8.995 · 2^49 = 5063734831024701.44` rounds to `5063734831024701` — so the
stored value of `8.995` is `8.99499999999999921…`, strictly below `8.995`. -/

/-- The binary64 value of the Python literal `8.333`. -/
def double8333 : ℚ := mkRat 4691061961859793 (2 ^ 49)

/-- The binary64 value of the Python literal `8.995`. -/
def double8995 : ℚ := mkRat 5063734831024701 (2 ^ 49)

/-! Theorems settling the claims. -/

/-- C3: when the batched criteria-scoring call fails (raises, or returns a
result whose criteria scores fail validation), the submission is returned
with status FAILED and no Score attached — any partially validated criterion
results are discarded (all-or-nothing scoring). -/
theorem criteria_scorer_failure_all_or_nothing (folder : String)
    (files : List SubmissionFile) (e : String) :
    (process_single_submission folder (.ok files) (.error e)).status = .failed
    ∧ (process_single_submission folder (.ok files) (.error e)).score = none :=
  ⟨rfl, rfl⟩

/-- C4: when every criteria score succeeds but overall-feedback generation
fails, the submission still ends SCORED, with the criteria scores standing
and the overall feedback recorded as absent. -/
theorem feedback_failure_non_fatal (folder : String)
    (files : List SubmissionFile) (scores : List CriteriaScore) (e : String)
    (hne : scores ≠ []) :
    (process_single_submission folder (.ok files)
        (score_submission_batched (.ok scores) (.error e))).status = .scored
    ∧ (process_single_submission folder (.ok files)
        (score_submission_batched (.ok scores) (.error e))).score =
      some { total_score := (scores.map CriteriaScore.score).sum
             criteria_scores := scores
             overall_feedback := none } := by
  cases scores with
  | nil => exact absurd rfl hne
  | cons c cs => exact ⟨rfl, rfl⟩

/-- C4 witness: one criteria score, feedback stage failing. -/
theorem feedback_failure_non_fatal_witness :
    ([⟨"Code Quality", "Meets expectations", 10, none⟩] :
      List CriteriaScore) ≠ []
    ∧ ((process_single_submission "subs/Jane_Doe_1_assignsubmission_file"
          (.ok [])
          (score_submission_batched
            (.ok [⟨"Code Quality", "Meets expectations", 10, none⟩])
            (.error "feedback call failed"))).status = .scored
      ∧ (process_single_submission "subs/Jane_Doe_1_assignsubmission_file"
          (.ok [])
          (score_submission_batched
            (.ok [⟨"Code Quality", "Meets expectations", 10, none⟩])
            (.error "feedback call failed"))).score =
        some { total_score :=
                 (([⟨"Code Quality", "Meets expectations", 10, none⟩] :
                    List CriteriaScore).map CriteriaScore.score).sum
               criteria_scores :=
                 [⟨"Code Quality", "Meets expectations", 10, none⟩]
               overall_feedback := none }) :=
  ⟨by decide,
    feedback_failure_non_fatal "subs/Jane_Doe_1_assignsubmission_file" []
      [⟨"Code Quality", "Meets expectations", 10, none⟩]
      "feedback call failed" (by decide)⟩

/-- C5: when the batched call succeeds with a nonempty criteria-score list,
the stored `total_score` is the sum of the individual scores, computed once
at that point, and the submission is SCORED. -/
theorem total_score_is_sum (folder : String) (files : List SubmissionFile)
    (scores : List CriteriaScore) (fb : Option String) (hne : scores ≠ []) :
    (process_single_submission folder (.ok files)
        (.ok ⟨scores, fb⟩)).score =
      some { total_score := (scores.map CriteriaScore.score).sum
             criteria_scores := scores
             overall_feedback := fb }
    ∧ (process_single_submission folder (.ok files)
        (.ok ⟨scores, fb⟩)).status = .scored := by
  cases scores with
  | nil => exact absurd rfl hne
  | cons c cs => exact ⟨rfl, rfl⟩

/-- C5 witness: two criteria scores, 10 and 7.5, totalling 17.5. -/
theorem total_score_is_sum_witness :
    ([⟨"Correctness", "Meets expectations", 10, none⟩,
      ⟨"Style", "Minor issues", 15 / 2, some "Use comments"⟩] :
      List CriteriaScore) ≠ []
    ∧ ((process_single_submission "subs/Jane_Doe_1_assignsubmission_file"
          (.ok [])
          (.ok ⟨[⟨"Correctness", "Meets expectations", 10, none⟩,
                 ⟨"Style", "Minor issues", 15 / 2, some "Use comments"⟩],
                some "Good work"⟩)).score =
        some { total_score :=
                 (([⟨"Correctness", "Meets expectations", 10, none⟩,
                    ⟨"Style", "Minor issues", 15 / 2, some "Use comments"⟩] :
                    List CriteriaScore).map CriteriaScore.score).sum
               criteria_scores :=
                 [⟨"Correctness", "Meets expectations", 10, none⟩,
                  ⟨"Style", "Minor issues", 15 / 2, some "Use comments"⟩]
               overall_feedback := some "Good work" }
      ∧ (process_single_submission "subs/Jane_Doe_1_assignsubmission_file"
          (.ok [])
          (.ok ⟨[⟨"Correctness", "Meets expectations", 10, none⟩,
                 ⟨"Style", "Minor issues", 15 / 2, some "Use comments"⟩],
                some "Good work"⟩)).status = .scored) :=
  ⟨by decide,
    total_score_is_sum "subs/Jane_Doe_1_assignsubmission_file" []
      [⟨"Correctness", "Meets expectations", 10, none⟩,
       ⟨"Style", "Minor issues", 15 / 2, some "Use comments"⟩]
      (some "Good work") (by decide)⟩

/-- C2 counterexample: the structured-output schema only fixes the shape of
the response (`selected_level` is any definition/score pair), so a
schema-valid response whose selected level is not among the criteria's
declared levels produces a `CriteriaScore` whose (level_definition, score)
pair appears nowhere in the declared levels — the selection-validity
invariant does not hold by construction. -/
theorem score_criteria_selection_validity_counterexample :
    ((score_criteria
        ⟨"Code Quality",
         [⟨"Meets expectations", 10⟩, ⟨"Does not meet expectations", 0⟩]⟩
        ⟨⟨"Partially meets expectations", 5⟩, none⟩).level_definition,
     (score_criteria
        ⟨"Code Quality",
         [⟨"Meets expectations", 10⟩, ⟨"Does not meet expectations", 0⟩]⟩
        ⟨⟨"Partially meets expectations", 5⟩, none⟩).score) ∉
      (([⟨"Meets expectations", 10⟩, ⟨"Does not meet expectations", 0⟩] :
          List Level).map fun l => (l.definition, l.score)) := by
  decide

/-- C2 (amended): the emitted `CriteriaScore` copies the response's selected
level verbatim (definition and score), so its (level_definition, score) pair
lies among the criteria's declared levels exactly when the remote model's
selected level is one of them; the schema constrains only the shape, not
membership, and no post-hoc validation is performed. -/
theorem score_criteria_verbatim_copy (criteria : Criteria)
    (response : ScoreCriteriaResponse) :
    (score_criteria criteria response).criteria_name = criteria.name
    ∧ (score_criteria criteria response).level_definition =
        response.selected_level.definition
    ∧ (score_criteria criteria response).score = response.selected_level.score
    ∧ (response.selected_level ∈ criteria.levels →
        ((score_criteria criteria response).level_definition,
         (score_criteria criteria response).score) ∈
          criteria.levels.map fun l => (l.definition, l.score)) :=
  ⟨rfl, rfl, rfl, fun h =>
    List.mem_map_of_mem (fun l => (l.definition, l.score)) h⟩

/-- C2 witness: a compliant response selecting a declared level. -/
theorem score_criteria_verbatim_copy_witness :
    ((⟨"Meets expectations", 10⟩ : Level) ∈
      (⟨"Code Quality",
        [⟨"Meets expectations", 10⟩, ⟨"Does not meet expectations", 0⟩]⟩ :
        Criteria).levels)
    ∧ ((score_criteria
          ⟨"Code Quality",
           [⟨"Meets expectations", 10⟩, ⟨"Does not meet expectations", 0⟩]⟩
          ⟨⟨"Meets expectations", 10⟩, none⟩).criteria_name = "Code Quality"
      ∧ (score_criteria
          ⟨"Code Quality",
           [⟨"Meets expectations", 10⟩, ⟨"Does not meet expectations", 0⟩]⟩
          ⟨⟨"Meets expectations", 10⟩, none⟩).level_definition =
            (⟨⟨"Meets expectations", 10⟩, none⟩ :
              ScoreCriteriaResponse).selected_level.definition
      ∧ (score_criteria
          ⟨"Code Quality",
           [⟨"Meets expectations", 10⟩, ⟨"Does not meet expectations", 0⟩]⟩
          ⟨⟨"Meets expectations", 10⟩, none⟩).score =
            (⟨⟨"Meets expectations", 10⟩, none⟩ :
              ScoreCriteriaResponse).selected_level.score
      ∧ ((⟨⟨"Meets expectations", 10⟩, none⟩ :
            ScoreCriteriaResponse).selected_level ∈
            (⟨"Code Quality",
              [⟨"Meets expectations", 10⟩,
               ⟨"Does not meet expectations", 0⟩]⟩ : Criteria).levels →
          ((score_criteria
              ⟨"Code Quality",
               [⟨"Meets expectations", 10⟩,
                ⟨"Does not meet expectations", 0⟩]⟩
              ⟨⟨"Meets expectations", 10⟩, none⟩).level_definition,
           (score_criteria
              ⟨"Code Quality",
               [⟨"Meets expectations", 10⟩,
                ⟨"Does not meet expectations", 0⟩]⟩
              ⟨⟨"Meets expectations", 10⟩, none⟩).score) ∈
            (⟨"Code Quality",
              [⟨"Meets expectations", 10⟩,
               ⟨"Does not meet expectations", 0⟩]⟩ : Criteria).levels.map
              fun l => (l.definition, l.score))) :=
  ⟨by decide,
    score_criteria_verbatim_copy
      ⟨"Code Quality",
       [⟨"Meets expectations", 10⟩, ⟨"Does not meet expectations", 0⟩]⟩
      ⟨⟨"Meets expectations", 10⟩, none⟩⟩

/-- C6 counterexample: `format_decimal` receives the binary64 value of the
literal `8.995`, which is `8.99499999999999921…`; Python's `round(·, 2)`
(correct rounding of the stored value, ties to even) yields `8.99`, so the
function returns "8.99", not "9" as the spec's example claims. -/
theorem format_decimal_8995_counterexample :
    format_decimal double8995 = "8.99" ∧ format_decimal double8995 ≠ "9" := by
  constructor
  · decide
  · decide

/-- C6 (amended): `format_decimal` rounds the stored binary64 value to at
most 2 decimal digits (ties to even) and strips trailing zeros and a
trailing decimal point: 8.0 → "8", 8.5 → "8.5", 8.333 → "8.33", and
8.995 → "8.99" (not "9": the stored value of the literal `8.995` is just
below 8.995 and rounds down). -/
theorem format_decimal_examples :
    format_decimal 8 = "8"
    ∧ format_decimal (mkRat 17 2) = "8.5"
    ∧ format_decimal double8333 = "8.33"
    ∧ format_decimal double8995 = "8.99" := by
  refine ⟨by decide, by decide, by decide, by decide⟩

/-- C1: the batch loop appends exactly one row-group per completed future —
the output has one entry per dispatched folder, its folders are exactly the
input folders (no duplicates, no omissions, whatever the arrival order), and
a future whose orchestration raised an uncaught error contributes a
synthesized FAILED submission built from the folder's display name: name is
`extract_name` of the last path component, no files, status FAILED, no
score. -/
theorem batch_exactly_one_row_group (folders arrival : List String)
    (outcome : String → Except String Submission)
    (hperm : arrival.Perm folders) :
    ((runBatch arrival outcome).map Prod.fst).Perm folders
    ∧ (runBatch arrival outcome).length = folders.length
    ∧ ∀ p ∈ runBatch arrival outcome, ∀ e, outcome p.1 = .error e →
        p.2 = { name := extract_name (lastComponent p.1)
                folder_path := p.1
                files := []
                status := .failed
                score := none } := by
  refine ⟨?_, ?_, ?_⟩
  · have h : (runBatch arrival outcome).map Prod.fst = arrival := by
      simp [runBatch, List.map_map, Function.comp_def]
    rw [h]
    exact hperm
  · simpa [runBatch] using hperm.length_eq
  · intro p hp e he
    simp only [runBatch, List.mem_map] at hp
    obtain ⟨f, -, rfl⟩ := hp
    simp only at he ⊢
    rw [he]
    rfl

/-- C1 witness: two folders arriving in reverse order, both orchestrations
raising. -/
theorem batch_exactly_one_row_group_witness :
    (["s/Bob_Roy_2_assignsubmission_file",
      "s/Jane_Doe_1_assignsubmission_file"] : List String).Perm
      ["s/Jane_Doe_1_assignsubmission_file", "s/Bob_Roy_2_assignsubmission_file"]
    ∧ ((runBatch
          ["s/Bob_Roy_2_assignsubmission_file",
           "s/Jane_Doe_1_assignsubmission_file"]
          (fun _ => .error "worker crashed")).map Prod.fst).Perm
        ["s/Jane_Doe_1_assignsubmission_file",
         "s/Bob_Roy_2_assignsubmission_file"]
    ∧ (runBatch
         ["s/Bob_Roy_2_assignsubmission_file",
          "s/Jane_Doe_1_assignsubmission_file"]
         (fun _ => .error "worker crashed")).length =
        (["s/Jane_Doe_1_assignsubmission_file",
          "s/Bob_Roy_2_assignsubmission_file"] : List String).length :=
  ⟨by decide,
    (batch_exactly_one_row_group
      ["s/Jane_Doe_1_assignsubmission_file", "s/Bob_Roy_2_assignsubmission_file"]
      ["s/Bob_Roy_2_assignsubmission_file", "s/Jane_Doe_1_assignsubmission_file"]
      (fun _ => .error "worker crashed") (by decide)).1,
    (batch_exactly_one_row_group
      ["s/Jane_Doe_1_assignsubmission_file", "s/Bob_Roy_2_assignsubmission_file"]
      ["s/Bob_Roy_2_assignsubmission_file", "s/Jane_Doe_1_assignsubmission_file"]
      (fun _ => .error "worker crashed") (by decide)).2.1⟩

/-- C7: row-group shape — a scored submission yields one row per criteria
score (Criteria/Level/Score/Feedback populated from it) plus one optional
trailing row carrying only the overall feedback; a submission without a
score yields a single row with Criteria/Level/Score blank and Feedback set
to "Failed" when its status is FAILED and "No Score" otherwise. -/
theorem csv_row_group_shape (s : Submission) :
    (∀ sc, s.score = some sc →
      append_submission_to_csv s =
        sc.criteria_scores.map (fun cs =>
          { name := s.name
            criteria := cs.criteria_name
            level := cs.level_definition
            score := format_decimal cs.score
            feedback := cs.feedback.getD "" })
        ++ match sc.overall_feedback with
           | some fb =>
               if fb = "" then []
               else [{ name := s.name, criteria := "", level := ""
                       score := "", feedback := fb }]
           | none => [])
    ∧ (s.score = none →
        append_submission_to_csv s =
          [{ name := s.name, criteria := "", level := "", score := ""
             feedback :=
               if s.status = Status.failed then "Failed" else "No Score" }]) := by
  constructor
  · intro sc hsc
    simp [append_submission_to_csv, hsc]
  · intro h
    simp [append_submission_to_csv, h]

/-- A scored submission used to exercise the row-group shapes. -/
def sampleScored : Submission :=
  { name := "Jane Doe"
    folder_path := "subs/Jane_Doe_1_assignsubmission_file"
    files := []
    status := .scored
    score := some { total_score := 10
                    criteria_scores :=
                      [⟨"Correctness", "Meets expectations", 10, none⟩]
                    overall_feedback := some "Nice work" } }

/-- A failed submission used to exercise the row-group shapes. -/
def sampleFailed : Submission :=
  { name := "Bob Roy"
    folder_path := "subs/Bob_Roy_2_assignsubmission_file"
    files := []
    status := .failed
    score := none }

/-- C7 witness: the scored and the failed sample submissions. -/
theorem csv_row_group_shape_witness :
    (sampleScored.score =
        some { total_score := 10
               criteria_scores :=
                 [⟨"Correctness", "Meets expectations", 10, none⟩]
               overall_feedback := some "Nice work" }
      ∧ append_submission_to_csv sampleScored =
          ([⟨"Correctness", "Meets expectations", 10, none⟩] :
              List CriteriaScore).map (fun cs =>
            { name := sampleScored.name
              criteria := cs.criteria_name
              level := cs.level_definition
              score := format_decimal cs.score
              feedback := cs.feedback.getD "" })
          ++ match (some "Nice work" : Option String) with
             | some fb =>
                 if fb = "" then []
                 else [{ name := sampleScored.name, criteria := "", level := ""
                         score := "", feedback := fb }]
             | none => [])
    ∧ (sampleFailed.score = none
      ∧ append_submission_to_csv sampleFailed =
          [{ name := sampleFailed.name, criteria := "", level := "", score := ""
             feedback :=
               if sampleFailed.status = Status.failed then "Failed"
               else "No Score" }]) :=
  ⟨⟨rfl, (csv_row_group_shape sampleScored).1 _ rfl⟩,
   ⟨rfl, (csv_row_group_shape sampleFailed).2 rfl⟩⟩

/-- The comparison `submissionLe` is transitive. -/
theorem submissionLe_trans (a b c : String) (hab : submissionLe a b)
    (hbc : submissionLe b c) : submissionLe a c := by
  simp only [submissionLe, decide_eq_true_eq] at hab hbc ⊢
  exact le_trans hab hbc

/-- The comparison `submissionLe` is total. -/
theorem submissionLe_total (a b : String) :
    submissionLe a b || submissionLe b a := by
  simp only [submissionLe, Bool.or_eq_true, decide_eq_true_eq]
  exact le_total _ _

/-- C8: with the submissions folder present, `get_submissions` returns
exactly the immediate entries that are directories whose name contains
`_assignsubmission_file` — as full paths, no duplicates added or dropped
(a permutation of the filtered listing) — sorted case-insensitively by
folder name; being a pure function of the listing, the dispatch order is
deterministic for fixed directory contents. -/
theorem get_submissions_select_and_sort (folder : String)
    (entries : List DirEntry) :
    (get_submissions folder entries true).Perm
      ((entries.filter
          (fun e => e.isDir &&
            strContainsSubstr e.name "_assignsubmission_file")).map
        (fun e => folder ++ "/" ++ e.name))
    ∧ (get_submissions folder entries true).Pairwise
        (fun a b => submissionLe a b = true) := by
  constructor
  · simpa [get_submissions] using
      List.mergeSort_perm
        ((entries.filter
            (fun e => e.isDir &&
              strContainsSubstr e.name "_assignsubmission_file")).map
          (fun e => folder ++ "/" ++ e.name)) submissionLe
  · simpa [get_submissions] using
      @List.sorted_mergeSort String submissionLe
        submissionLe_trans submissionLe_total
        ((entries.filter
            (fun e => e.isDir &&
              strContainsSubstr e.name "_assignsubmission_file")).map
          (fun e => folder ++ "/" ++ e.name))

/-- A string in which the pattern `_\d+_assignsubmission_file` does not
occur keeps all its characters under `stripSuffixPattern`. -/
theorem stripSuffixPattern_eq_self (cs : List Char)
    (h : hasSuffixPattern.go cs = false) : stripSuffixPattern cs = cs := by
  induction cs with
  | nil => rfl
  | cons c rest ih =>
      rw [hasSuffixPattern.go, Bool.or_eq_false_iff] at h
      rw [stripSuffixPattern, if_neg (by simp [h.1]), ih h.2]

/-- C9: `extract_name` strips the trailing numeric id and
`_assignsubmission_file` suffix and replaces underscores by spaces
(`"Jane_Doe_12345_assignsubmission_file" → "Jane Doe"`); on a folder name in
which the suffix pattern does not occur it only replaces every underscore by
a space, leaving the rest unchanged. -/
theorem extract_name_spec :
    extract_name "Jane_Doe_12345_assignsubmission_file" = "Jane Doe"
    ∧ ∀ s : String, hasSuffixPattern s = false →
        extract_name s = ⟨s.toList.map fun c => if c = '_' then ' ' else c⟩ := by
  constructor
  · decide
  · intro s h
    unfold extract_name
    rw [stripSuffixPattern_eq_self s.toList h]

/-- C9 witness: a folder name without the platform suffix. -/
theorem extract_name_spec_witness :
    hasSuffixPattern "Alice_Smith" = false
    ∧ extract_name "Alice_Smith" = "Alice Smith" :=
  ⟨by decide, (extract_name_spec.2 "Alice_Smith" (by decide)).trans (by decide)⟩

/-- C10: for every submission returned by the orchestration, the score is
present iff the status is SCORED; and when both remote stages succeed but
the criteria-score list comes back empty, the submission keeps status
SCORING with no score and is emitted as a single "No Score" row. -/
theorem score_present_iff_scored (folder : String)
    (prepared : Except String (List SubmissionFile))
    (batched : Except String BatchedResult) :
    ((process_single_submission folder prepared batched).score ≠ none ↔
      (process_single_submission folder prepared batched).status = .scored)
    ∧ ∀ fb, batched = .ok ⟨[], fb⟩ → ∀ files, prepared = .ok files →
        (process_single_submission folder prepared batched).status = .scoring
        ∧ (process_single_submission folder prepared batched).score = none
        ∧ append_submission_to_csv
            (process_single_submission folder prepared batched) =
            [{ name := extract_name (lastComponent folder), criteria := ""
               level := "", score := "", feedback := "No Score" }] := by
  constructor
  · cases prepared with
    | error e =>
        simp [process_single_submission, prepare_submission,
          create_failed_submission, Except.map]
    | ok files =>
        cases batched with
        | error e =>
            simp [process_single_submission, prepare_submission, Except.map]
        | ok br =>
            obtain ⟨cs, fb⟩ := br
            cases cs with
            | nil =>
                simp [process_single_submission, prepare_submission, Except.map]
            | cons c rest =>
                simp [process_single_submission, prepare_submission, Except.map]
  · rintro fb rfl files rfl
    exact ⟨rfl, rfl, rfl⟩

/-- C10 witness: both stages succeed but the criteria-score list is empty. -/
theorem score_present_iff_scored_witness :
    (Except.ok ⟨[], some "fb"⟩ : Except String BatchedResult) =
        Except.ok ⟨[], some "fb"⟩
    ∧ (Except.ok [] : Except String (List SubmissionFile)) = Except.ok []
    ∧ ((process_single_submission "subs/Ann_Lee_3_assignsubmission_file"
          (.ok []) (.ok ⟨[], some "fb"⟩)).status = .scoring
      ∧ (process_single_submission "subs/Ann_Lee_3_assignsubmission_file"
          (.ok []) (.ok ⟨[], some "fb"⟩)).score = none
      ∧ append_submission_to_csv
          (process_single_submission "subs/Ann_Lee_3_assignsubmission_file"
            (.ok []) (.ok ⟨[], some "fb"⟩)) =
          [{ name := extract_name
               (lastComponent "subs/Ann_Lee_3_assignsubmission_file")
             criteria := "", level := "", score := ""
             feedback := "No Score" }]) :=
  ⟨rfl, rfl,
    (score_present_iff_scored "subs/Ann_Lee_3_assignsubmission_file"
      (.ok []) (.ok ⟨[], some "fb"⟩)).2 (some "fb") rfl [] rfl⟩

end Autograder
